import Mathlib

/-!
Shallow embedding of the rescoop scraping pipeline
(src/scraper-rescoop.py, bulk-parallel mode, and
src/scraper-trineflex-REScoop.py, incremental-sequential mode).

External collaborators (the HTTP fetch + HTML parse of one page, the
Nominatim geocoding service, the MongoDB collection) are modelled as
explicit environments and state:
 - a page fetch is a `FetchResult` (parsed markup: status code, the list
   of `.article-card.network-item` card elements, and whether a
   "next page" pagination link is present; or a raised
   `requests.exceptions.RequestException`);
 - one `geolocator.geocode(query)` call is one lookup in an oracle
   `Nat → Option String → GeoResp` (call index, query string — the query
   is an `Option String` because the Python code can pass `None` to
   `geocode`); a raised geopy exception is a `GeoResp` constructor;
 - the MongoDB collection is a `Store`: a list of documents in insertion
   order, plus a fresh-id counter (`find_one` scans in order,
   `update_one` patches the single first `_id` match, `insert_one`
   appends; this pipeline never deletes).

Python exceptions that the source does not catch are modelled with
`Except PyExn`; machine-level details the claims do not touch (exact
float coordinates, wall-clock timestamps) are carried as `Int` / `Nat`
values.
-/

namespace Scraping

/-- Outcome of one `geolocator.geocode(query)` call: a located result
(with its latitude/longitude), no result (`None` returned), or one of the
distinguished geopy failure kinds raised as an exception
(`GeocoderTimedOut`, `GeocoderInsufficientPrivileges`,
`GeocoderServiceError`, or any other `Exception`). -/
inductive GeoResp where
  | found (lat lon : Int)
  | notFound
  | timedOut
  | insufficientPrivileges
  | serviceError
  | otherError
deriving DecidableEq, Repr

/-- Python truthiness of an optional string: `None` and `""` are falsy. -/
def truthy : Option String → Bool
  | none => false
  | some s => !s.isEmpty

/-- The query issued by the first `geolocator.geocode` call of
`get_coordinates` (line 73): the f-string `"{city}, {country}"` when both
`city` and `country` are truthy, otherwise the raw `country` value itself
(which may be `None` or empty — the code still calls `geocode` on it). -/
def firstQuery (city : String) (country : Option String) : Option String :=
  if !city.isEmpty && truthy country then some (city ++ ", " ++ country.getD "")
  else country

/-- The `except GeocoderTimedOut` retry block of `get_coordinates`
(lines 86–101): one more `geocode` call (at call index `k`) with the same
query selection, returning the coordinates on success and `(None, None)`
on no result or on any exception. -/
def geo_retry (env : Nat → Option String → GeoResp) (k : Nat)
    (city : String) (country : Option String) : Option Int × Option Int :=
  if !city.isEmpty && truthy country then
    match env k (some (city ++ ", " ++ country.getD "")) with
    | .found a b => (some a, some b)
    | _ => (none, none)
  else if truthy country then
    match env k country with
    | .found a b => (some a, some b)
    | _ => (none, none)
  else (none, none)

/-- `get_coordinates(city, country)` (lines 69–110 of
src/scraper-rescoop.py; identical in the sequential variant). The oracle
`env` answers the successive `geocode` calls: call 0 is the first attempt,
call 1 is either the country-centroid fallback (after a no-result) or the
retry (after a timeout on call 0), call 2 is the retry after a timeout on
the fallback call. -/
def get_coordinates (env : Nat → Option String → GeoResp)
    (city : String) (country : Option String) : Option Int × Option Int :=
  match env 0 (firstQuery city country) with
  | .found a b => (some a, some b)
  | .notFound =>
    -- fallback to country centroid if the first query yields no result
    if truthy country then
      match env 1 country with
      | .found a b => (some a, some b)
      | .notFound => (none, none)
      | .timedOut => geo_retry env 2 city country
      | .insufficientPrivileges => (none, none)
      | .serviceError => (none, none)
      | .otherError => (none, none)
    else (none, none)
  | .timedOut => geo_retry env 1 city country
  | .insufficientPrivileges => (none, none)
  | .serviceError => (none, none)
  | .otherError => (none, none)

/-- Python `str.split(", ")` at character level: scan left to right,
breaking at each non-overlapping occurrence of the two-character
separator `", "`. `split_cs []` is `[[]]` — Python's `"".split(", ")`
is `[""]`. -/
def split_cs : List Char → List (List Char)
  | [] => [[]]
  | [c] => [[c]]
  | ',' :: ' ' :: rest => [] :: split_cs rest
  | c :: c2 :: rest =>
    match split_cs (c2 :: rest) with
    | [] => [[c]]
    | part :: parts => (c :: part) :: parts

/-- Python `str.strip()`: drop whitespace from both ends. -/
def py_strip (s : String) : String :=
  String.mk
    (((s.data.dropWhile Char.isWhitespace).reverse.dropWhile
      Char.isWhitespace).reverse)

/-- `split_location(location)` (lines 63–67 of src/scraper-rescoop.py):
`location.split(', ')`; with at least two parts return
(first part, last part), otherwise (whole string, None). -/
def split_location (location : String) : String × Option String :=
  let parts := (split_cs location.data).map String.mk
  if parts.length ≥ 2 then (parts.head!, some parts.getLast!)
  else (location, none)

/-- One `.article-card.network-item` card element of a directory page,
reduced to the fields the scraper reads: the trimmed-to-be text of the
`.article-content h2` heading (`none` when the element is missing — then
`.text` raises `AttributeError`), the text of `footer h4` (likewise),
the texts of the `.term-list li a` tag elements, and the `href` of the
`.buttons .button.external` element when present. -/
structure Card where
  heading : Option String
  footer : Option String
  terms : List String
  website : Option String
deriving DecidableEq, Repr

/-- Result of `requests.get(url)` followed by HTML parsing: the HTTP
status code, the card elements found in the body, and whether the body
contains an `a.pagination-link` with `aria-label` "next page"; or a
raised `requests.exceptions.RequestException`. -/
inductive FetchResult where
  | ok (status : Nat) (cards : List Card) (hasNext : Bool)
  | requestException
deriving DecidableEq, Repr

/-- Python exceptions that escape the functions of this pipeline:
`AttributeError` from `.text` on a missing element, `KeyError` from
`df['Location']` on a column-less DataFrame, and
`requests.exceptions.RequestException` where no handler catches it
(`find_max_pages` has no try block). -/
inductive PyExn where
  | attributeError
  | keyErrorLocation
  | requestError
deriving DecidableEq, Repr

/-- A raw scraped record as built by `scrape_page` (lines 50–56): the
dict with keys "Organization Name", "Location", "Active In", "Website",
"Scraped At". -/
structure RawRec where
  orgName : String
  location : String
  activeIn : String
  website : String
  scrapedAt : Nat
deriving DecidableEq, Repr

/-- The per-card loop of `scrape_page` (lines 37–56). For each card:
read the heading (`AttributeError` if missing), trim it, skip the card
when the name is already in `existing_orgs`, otherwise read the footer
text (`AttributeError` if missing), join the tag texts with `", "` (or
"N/A" when there are none), take the external link's href (or "N/A"),
and append the record. An exception raised at any card aborts the whole
loop — `scrape_page`'s try only catches `RequestException`. -/
def extract_cards (existing_orgs : List String) (now : Nat) :
    List Card → Except PyExn (List RawRec)
  | [] => .ok []
  | card :: rest =>
    match card.heading with
    | none => .error .attributeError
    | some h =>
      let org_name := py_strip h
      if existing_orgs.contains org_name then
        extract_cards existing_orgs now rest
      else
        match card.footer with
        | none => .error .attributeError
        | some loc =>
          match extract_cards existing_orgs now rest with
          | .error e => .error e
          | .ok tail =>
            .ok ({ orgName := org_name
                   location := loc
                   activeIn :=
                     if card.terms.isEmpty then "N/A"
                     else String.intercalate ", " card.terms
                   website := card.website.getD "N/A"
                   scrapedAt := now } :: tail)

/-- `scrape_page(url, existing_orgs)` (lines 25–61 of
src/scraper-rescoop.py; identical in the sequential variant). Returns
`.ok none` for a raised `RequestException` (caught, line 59), a non-200
status, or a page with zero card elements; otherwise runs the per-card
loop, whose `AttributeError` (not caught by the `except
requests.exceptions.RequestException` handler) escapes as `.error`. -/
def scrape_page (fetch : FetchResult) (now : Nat) (existing_orgs : List String) :
    Except PyExn (Option (List RawRec)) :=
  match fetch with
  | .requestException => .ok none
  | .ok status cards _ =>
    if status ≠ 200 then .ok none
    else if cards.isEmpty then .ok none
    else (extract_cards existing_orgs now cards).map some

/-- `find_max_pages(base_url)` (lines 133–148 of
src/scraper-trineflex-REScoop.py): starting at page 1, follow the
"next page" link until a page lacks it, returning that page's number.
`requests.get` exceptions are uncaught (`.error`); `fuel` bounds the
unboundedly-looping `while True`, `.ok none` meaning the loop has not
terminated within `fuel` iterations. -/
def find_max_pages (env : Nat → FetchResult) :
    Nat → Nat → Except PyExn (Option Nat)
  | 0, _ => .ok none
  | fuel + 1, page_number =>
    match env page_number with
    | .requestException => .error .requestError
    | .ok _ _ hasNext =>
      if hasNext then find_max_pages env fuel (page_number + 1)
      else .ok (some page_number)

/-- A fully enriched record as handed to `save_to_mongo`: the scraped
dict with "Location" deleted and "City", "Country", "Latitude",
"Longitude" added. -/
structure EnrichedRec where
  orgName : String
  activeIn : String
  website : String
  scrapedAt : Nat
  city : String
  country : Option String
  latitude : Option Int
  longitude : Option Int
deriving DecidableEq, Repr

/-- One MongoDB document: its `_id` and the record fields. The `$set`
patches issued by this pipeline always carry the full field set of an
`EnrichedRec`, so merging such a patch onto a document replaces exactly
these fields. -/
structure Doc where
  id : Nat
  fields : EnrichedRec
deriving DecidableEq, Repr

/-- The `trineflex.rescoop` collection: documents in insertion order plus
a fresh-`_id` source (this pipeline never deletes, so ids of live
documents are exactly those below `nextId` once the store starts empty). -/
structure Store where
  docs : List Doc
  nextId : Nat
deriving DecidableEq, Repr

/-- Outcome of one `save_to_mongo` iteration for one record, as reported
by its print statements. -/
inductive UpsertResult where
  | inserted
  | updated
deriving DecidableEq, Repr

/-- `collection.find_one({"Organization Name": org_name})`: the first
document in collection order whose name field matches. -/
def find_one (store : Store) (name : String) : Option Doc :=
  store.docs.find? (fun d => d.fields.orgName == name)

/-- `collection.update_one({"_id": id}, {"$set": r})`: patch the single
first document with the given `_id`. -/
def set_first (docs : List Doc) (id : Nat) (r : EnrichedRec) : List Doc :=
  match docs with
  | [] => []
  | d :: rest =>
    if d.id = id then { d with fields := r } :: rest
    else d :: set_first rest id r

/-- The body of the `save_to_mongo` loop for one record (lines 119–130
of src/scraper-rescoop.py): look the name up; if found, `$set` the
record's fields onto that document ("Updated"); else insert a new
document ("Inserted"). -/
def save_one (store : Store) (r : EnrichedRec) : Store × UpsertResult :=
  match find_one store r.orgName with
  | some d => ({ store with docs := set_first store.docs d.id r }, .updated)
  | none =>
    ({ docs := store.docs ++ [{ id := store.nextId, fields := r }],
       nextId := store.nextId + 1 }, .inserted)

/-- `save_to_mongo(data)` (lines 112–132): upsert each record in order,
returning the new store and the per-record outcomes. -/
def save_to_mongo (data : List EnrichedRec) (store : Store) :
    Store × List UpsertResult :=
  match data with
  | [] => (store, [])
  | r :: rest =>
    let step := save_one store r
    let steps := save_to_mongo rest step.1
    (steps.1, step.2 :: steps.2)

/-- Enrichment of one record (shared shape of bulk lines 163–165 and
sequential lines 183–189): split the location, geocode it (the oracle
`env` answers this record's `geocode` calls), delete "Location", add
"City"/"Country"/"Latitude"/"Longitude". -/
def enrich_record (env : Nat → Option String → GeoResp) (r : RawRec) :
    EnrichedRec :=
  let parsed := split_location r.location
  let coords := get_coordinates env parsed.1 parsed.2
  { orgName := r.orgName
    activeIn := r.activeIn
    website := r.website
    scrapedAt := r.scrapedAt
    city := parsed.1
    country := parsed.2
    latitude := coords.1
    longitude := coords.2 }

/-- State threaded through the sequential driver's loops
(src/scraper-trineflex-REScoop.py, `main`): the in-memory
`existing_orgs` set (as a list with set-membership semantics), the
MongoDB store, a counter of geocoded records (each enriched record
consumes a fresh slice of the geocoding oracle), and three ghost traces:
the records passed to `save_to_mongo`, the `(known-set snapshot, name)`
pair for each record passed to enrichment, and the names that hit the
"Record already exists. Stopping process." branch. -/
structure SeqState where
  existing : List String
  store : Store
  geocount : Nat
  writes : List EnrichedRec
  events : List (List String × String)
  stops : List String
deriving DecidableEq, Repr

/-- The per-record loop of the sequential `main` (lines 174–193 of
src/scraper-trineflex-REScoop.py). For a record whose name is already in
`existing_orgs` the code prints "Record already exists. Stopping
process.", closes the client — and executes `continue`, moving on to the
next record. Otherwise the record is enriched (split_location,
get_coordinates), written via `save_to_mongo([record])`, and its name is
added to the in-memory `existing_orgs`. -/
def process_records (geoEnv : Nat → Nat → Option String → GeoResp) :
    SeqState → List RawRec → SeqState
  | st, [] => st
  | st, r :: rest =>
    if st.existing.contains r.orgName then
      process_records geoEnv { st with stops := st.stops ++ [r.orgName] } rest
    else
      let er := enrich_record (geoEnv st.geocount) r
      let saved := save_to_mongo [er] st.store
      process_records geoEnv
        { existing := st.existing ++ [r.orgName]
          store := saved.1
          geocount := st.geocount + 1
          writes := st.writes ++ [er]
          events := st.events ++ [(st.existing, r.orgName)]
          stops := st.stops } rest

/-- The page loop of the sequential `main` (lines 171–193): for each page
number, `scrape_page` with the current `existing_orgs`; a page yielding
`None` or an empty list is skipped (`if page_data:`), otherwise its
records are processed in order. An exception from `scrape_page`
propagates (nothing catches it in `main`). -/
def seq_pages (pagesEnv : Nat → FetchResult)
    (geoEnv : Nat → Nat → Option String → GeoResp) (now : Nat) :
    SeqState → List Nat → Except PyExn SeqState
  | st, [] => .ok st
  | st, i :: rest =>
    match scrape_page (pagesEnv i) now st.existing with
    | .error e => .error e
    | .ok none => seq_pages pagesEnv geoEnv now st rest
    | .ok (some page_data) =>
      if page_data.isEmpty then seq_pages pagesEnv geoEnv now st rest
      else seq_pages pagesEnv geoEnv now (process_records geoEnv st page_data) rest

/-- Initial sequential driver state over a known-set and a store. -/
def init_state (existing : List String) (store : Store) : SeqState :=
  { existing := existing, store := store, geocount := 0
    writes := [], events := [], stops := [] }

/-- The sequential `main` (lines 150–195 of
src/scraper-trineflex-REScoop.py): `find_max_pages`, then the page loop
over pages `1 .. max_pages`. `.ok none` models a `find_max_pages` call
that never terminates (within `fuel`). -/
def seq_main (pagesEnv : Nat → FetchResult)
    (geoEnv : Nat → Nat → Option String → GeoResp)
    (now fuel : Nat) (existing : List String) (store : Store) :
    Except PyExn (Option SeqState) :=
  match find_max_pages pagesEnv fuel 1 with
  | .error e => .error e
  | .ok none => .ok none
  | .ok (some max_pages) =>
    (seq_pages pagesEnv geoEnv now (init_state existing store)
      (List.range' 1 max_pages)).map some

/-- The record trace of a finished sequential run (empty when the run
raised or diverged). -/
def writes_of : Except PyExn (Option SeqState) → List EnrichedRec
  | .ok (some st) => st.writes
  | _ => []

/-- The enrichment-event trace of a finished sequential run. -/
def events_of : Except PyExn (Option SeqState) → List (List String × String)
  | .ok (some st) => st.events
  | _ => []

/-- The page-collection loop of the bulk `main` (lines 155–160 of
src/scraper-rescoop.py): every page in the list is scraped against the
one fixed `existing_orgs` set, and the truthy results (`if page_data:`
— non-`None` and non-empty) are concatenated. The thread pool's
`as_completed` order is modelled as page order; an exception raised
inside a worker is re-raised by `future.result()` and propagates. -/
def bulk_collect (pagesEnv : Nat → FetchResult) (now : Nat)
    (existing : List String) : List Nat → Except PyExn (List RawRec)
  | [] => .ok []
  | i :: rest =>
    match scrape_page (pagesEnv i) now existing with
    | .error e => .error e
    | .ok none => bulk_collect pagesEnv now existing rest
    | .ok (some page_data) =>
      match bulk_collect pagesEnv now existing rest with
      | .error e => .error e
      | .ok acc =>
        .ok (if page_data.isEmpty then acc else page_data ++ acc)

/-- The bulk `main` (lines 134–167 of src/scraper-rescoop.py): collect
pages 1..100 concurrently, build a DataFrame, enrich every row
(split_location, then get_coordinates row by row — `geoEnv` gives each
row index its own geocoding oracle), and batch-write. `pd.DataFrame([])`
built from an empty batch has no columns at all, so `df['Location']`
(line 163) raises a `KeyError` — modelled by the `.error
.keyErrorLocation` branch. -/
def bulk_main (pagesEnv : Nat → FetchResult)
    (geoEnv : Nat → Nat → Option String → GeoResp) (now : Nat)
    (existing : List String) (store : Store) :
    Except PyExn (Store × List UpsertResult) :=
  match bulk_collect pagesEnv now existing (List.range' 1 100) with
  | .error e => .error e
  | .ok data =>
    if data.isEmpty then .error .keyErrorLocation
    else
      .ok (save_to_mongo
        (data.enum.map (fun p => enrich_record (geoEnv p.1) p.2)) store)

/-! Concrete pages, cards, geocoding oracles and stores used to evaluate
the pipeline at specific inputs. -/

/-- A well-formed card named "A". -/
def cardA : Card :=
  { heading := some "A", footer := some "Liège, Wallonia, Belgium"
    terms := [], website := none }

/-- A well-formed card named "B". -/
def cardB : Card :=
  { heading := some "B", footer := some "Brussels"
    terms := ["wind", "solar"], website := some "https://b.example" }

/-- A malformed card: the `.article-content h2` heading element is
missing. -/
def badCard : Card :=
  { heading := none, footer := some "x", terms := [], website := none }

/-- A geocoding oracle that never finds anything. -/
def geoNone : Nat → Nat → Option String → GeoResp := fun _ _ _ => .notFound

/-- An empty MongoDB collection. -/
def emptyStore : Store := { docs := [], nextId := 0 }

/-- A site with a single page (no next link) whose cards are named
A, A, B: the duplicate A is new at scrape time, gets written, and its
second occurrence is already known when the record loop reaches it. -/
def pagesKnownMidRun : Nat → FetchResult :=
  fun _ => .ok 200 [cardA, cardA, cardB] false

/-- A site whose every page carries a malformed card after a good one. -/
def pagesMalformed : Nat → FetchResult :=
  fun _ => .ok 200 [cardA, badCard] false

/-- A site whose page 1 has zero cards but a "next page" link, and whose
page 2 carries card B and no next link. -/
def pagesZeroCardMidRun : Nat → FetchResult := fun i =>
  if i = 1 then .ok 200 [] true else .ok 200 [cardB] false

/-- A geocoding oracle resolving the `None` query (Nominatim does: "None"
is the name of a comune in Piedmont, Italy) and nothing else. -/
def envNoneFound : Nat → Option String → GeoResp := fun _ q =>
  match q with
  | none => .found 45 7
  | some _ => .notFound

/-- A geocoding oracle that times out on the first call and then raises a
service error. -/
def envTimedOutThenErr : Nat → Option String → GeoResp := fun k _ =>
  if k = 0 then .timedOut else .serviceError

/-- A geocoding oracle that always raises `GeocoderInsufficientPrivileges`. -/
def envPrivileges : Nat → Option String → GeoResp :=
  fun _ _ => .insufficientPrivileges

/-- A geocoding oracle with no result on the first call and a hit on the
fallback call. -/
def envFallback : Nat → Option String → GeoResp := fun k _ =>
  if k = 0 then .notFound else .found 50 4

/-- A fully enriched sample record. -/
def rec0 : EnrichedRec :=
  { orgName := "A", activeIn := "N/A", website := "N/A", scrapedAt := 0
    city := "Liège", country := some "Belgium"
    latitude := none, longitude := none }

/-- The names that hit the "Record already exists. Stopping process."
branch during a finished sequential run. -/
def stops_of : Except PyExn (Option SeqState) → List String
  | .ok (some st) => st.stops
  | _ => []

/-- The record trace of a finished page loop. -/
def run_writes : Except PyExn SeqState → List EnrichedRec
  | .ok st => st.writes
  | .error _ => []

/-- The enrichment-event trace of a finished page loop. -/
def run_events : Except PyExn SeqState → List (List String × String)
  | .ok st => st.events
  | .error _ => []

/-! Helper lemmas (shared). -/

/-- The retry block returns either a full coordinate pair or `(None, None)`. -/
theorem geo_retry_shape (env : Nat → Option String → GeoResp) (k : Nat)
    (city : String) (country : Option String) :
    geo_retry env k city country = (none, none)
    ∨ ∃ a b, geo_retry env k city country = (some a, some b) := by
  unfold geo_retry
  split_ifs
  · cases env k (some (city ++ ", " ++ country.getD "")) <;>
      first
        | exact Or.inl rfl
        | exact Or.inr ⟨_, _, rfl⟩
  · cases env k country <;>
      first
        | exact Or.inl rfl
        | exact Or.inr ⟨_, _, rfl⟩
  · exact Or.inl rfl

/-- If the retry call does not locate anything, the retry block returns
`(None, None)`. -/
theorem geo_retry_no_found (env : Nat → Option String → GeoResp) (k : Nat)
    (city : String) (country : Option String)
    (h : ∀ a b q, env k q ≠ .found a b) :
    geo_retry env k city country = (none, none) := by
  unfold geo_retry
  split_ifs
  · cases hq : env k (some (city ++ ", " ++ country.getD "")) <;>
      first
        | rfl
        | exact absurd hq (h _ _ _)
  · cases hq : env k country <;>
      first
        | rfl
        | exact absurd hq (h _ _ _)
  · rfl

/-- `get_coordinates` returns either a full coordinate pair or
`(None, None)`. -/
theorem get_coordinates_shape (env : Nat → Option String → GeoResp)
    (city : String) (country : Option String) :
    get_coordinates env city country = (none, none)
    ∨ ∃ a b, get_coordinates env city country = (some a, some b) := by
  unfold get_coordinates
  cases env 0 (firstQuery city country)
  case found a b => exact Or.inr ⟨a, b, rfl⟩
  case notFound =>
    split_ifs
    · cases env 1 country <;>
        first
          | exact Or.inl rfl
          | exact Or.inr ⟨_, _, rfl⟩
          | exact geo_retry_shape env 2 city country
    · exact Or.inl rfl
  case timedOut => exact geo_retry_shape env 1 city country
  case insufficientPrivileges => exact Or.inl rfl
  case serviceError => exact Or.inl rfl
  case otherError => exact Or.inl rfl

/-- An enriched record carries latitude and longitude together or not at
all. -/
theorem enrich_record_latlon (env : Nat → Option String → GeoResp)
    (r : RawRec) :
    ((enrich_record env r).latitude.isSome
      == (enrich_record env r).longitude.isSome) = true := by
  unfold enrich_record
  rcases get_coordinates_shape env (split_location r.location).1
      (split_location r.location).2 with h | ⟨a, b, h⟩ <;>
    simp [h]

/-- `process_records` preserves "every written record has latitude and
longitude together or not at all". -/
theorem process_records_latlon (geoEnv : Nat → Nat → Option String → GeoResp)
    (l : List RawRec) :
    ∀ st : SeqState,
      st.writes.all (fun r => r.latitude.isSome == r.longitude.isSome) = true →
      (process_records geoEnv st l).writes.all
        (fun r => r.latitude.isSome == r.longitude.isSome) = true := by
  induction l with
  | nil => intro st h; exact h
  | cons r rest ih =>
    intro st h
    rw [process_records]
    split_ifs
    · exact ih _ h
    · refine ih _ ?_
      simp only [List.all_append, List.all_cons, List.all_nil, h,
        Bool.and_true, Bool.true_and]
      exact enrich_record_latlon (geoEnv st.geocount) r

/-- `seq_pages` preserves the same writes invariant. -/
theorem seq_pages_latlon (pagesEnv : Nat → FetchResult)
    (geoEnv : Nat → Nat → Option String → GeoResp) (now : Nat)
    (pages : List Nat) :
    ∀ st : SeqState,
      st.writes.all (fun r => r.latitude.isSome == r.longitude.isSome) = true →
      (run_writes (seq_pages pagesEnv geoEnv now st pages)).all
        (fun r => r.latitude.isSome == r.longitude.isSome) = true := by
  induction pages with
  | nil => intro st h; exact h
  | cons i rest ih =>
    intro st h
    rw [seq_pages]
    cases scrape_page (pagesEnv i) now st.existing with
    | error e => rfl
    | ok payload =>
      cases payload with
      | none => exact ih st h
      | some page_data =>
        dsimp only
        split_ifs
        · exact ih st h
        · exact ih _ (process_records_latlon geoEnv page_data st h)

/-- Every record produced by the per-card loop has a name outside
`existing_orgs`. -/
theorem extract_cards_all_new (existing : List String) (now : Nat) :
    ∀ cards : List Card,
      ((extract_cards existing now cards).toOption.getD []).all
        (fun r => !existing.contains r.orgName) = true := by
  intro cards
  induction cards with
  | nil => rfl
  | cons card rest ih =>
    rw [extract_cards]
    cases card.heading with
    | none => rfl
    | some h =>
      dsimp only
      by_cases hmem : existing.contains (py_strip h) = true
      · rw [if_pos hmem]; exact ih
      · rw [if_neg hmem]
        cases card.footer with
        | none => rfl
        | some loc =>
          dsimp only
          cases heq : extract_cards existing now rest with
          | error e => rfl
          | ok tail =>
            rw [heq] at ih
            simp only [Except.toOption, Option.getD, List.all_cons,
              Bool.and_eq_true] at ih ⊢
            exact ⟨by simpa using hmem, ih⟩

/-- A truthy `scrape_page` result only carries names outside
`existing_orgs`. -/
theorem scrape_page_all_new (fetch : FetchResult) (now : Nat)
    (existing : List String) (l : List RawRec)
    (h : scrape_page fetch now existing = .ok (some l)) :
    l.all (fun r => !existing.contains r.orgName) = true := by
  cases fetch with
  | requestException => exact absurd h (by simp [scrape_page])
  | ok status cards hasNext =>
    rw [scrape_page] at h
    by_cases hs : status ≠ 200
    · rw [if_pos hs] at h; exact absurd h (by simp)
    · rw [if_neg hs] at h
      by_cases hc : cards.isEmpty = true
      · rw [if_pos hc] at h; exact absurd h (by simp)
      · rw [if_neg hc] at h
        cases heq : extract_cards existing now cards with
        | error e => rw [heq] at h; exact absurd h (by simp [Except.map])
        | ok tail =>
          rw [heq] at h
          have htail := extract_cards_all_new existing now cards
          rw [heq] at htail
          have hl : tail = l := by simpa [Except.map] using h
          rw [← hl]
          simpa using htail

/-- The whole bulk batch only carries names outside `existing_orgs`. -/
theorem bulk_collect_all_new (pagesEnv : Nat → FetchResult) (now : Nat)
    (existing : List String) :
    ∀ pages : List Nat,
      ((bulk_collect pagesEnv now existing pages).toOption.getD []).all
        (fun r => !existing.contains r.orgName) = true := by
  intro pages
  induction pages with
  | nil => rfl
  | cons i rest ih =>
    rw [bulk_collect]
    cases hp : scrape_page (pagesEnv i) now existing with
    | error e => rfl
    | ok payload =>
      cases payload with
      | none => exact ih
      | some page_data =>
        dsimp only
        cases hr : bulk_collect pagesEnv now existing rest with
        | error e => rfl
        | ok acc =>
          rw [hr] at ih
          simp only [Except.toOption, Option.getD] at ih ⊢
          split_ifs
          · exact ih
          · simp only [List.all_append, Bool.and_eq_true]
            exact ⟨scrape_page_all_new _ now existing page_data hp, ih⟩

/-- Each enrichment event of `process_records` records a name that was
not in the known-set snapshot taken when the record was encountered. -/
theorem process_records_events (geoEnv : Nat → Nat → Option String → GeoResp)
    (l : List RawRec) :
    ∀ st : SeqState,
      st.events.all (fun e => !e.1.contains e.2) = true →
      (process_records geoEnv st l).events.all
        (fun e => !e.1.contains e.2) = true := by
  induction l with
  | nil => intro st h; exact h
  | cons r rest ih =>
    intro st h
    rw [process_records]
    by_cases hmem : st.existing.contains r.orgName = true
    · rw [if_pos hmem]; exact ih _ h
    · rw [if_neg hmem]
      refine ih _ ?_
      simp only [List.all_append, List.all_cons, List.all_nil,
        Bool.and_eq_true, h]
      exact ⟨trivial, by simpa using hmem, trivial⟩

/-- `seq_pages` preserves the events invariant. -/
theorem seq_pages_events (pagesEnv : Nat → FetchResult)
    (geoEnv : Nat → Nat → Option String → GeoResp) (now : Nat)
    (pages : List Nat) :
    ∀ st : SeqState,
      st.events.all (fun e => !e.1.contains e.2) = true →
      (run_events (seq_pages pagesEnv geoEnv now st pages)).all
        (fun e => !e.1.contains e.2) = true := by
  induction pages with
  | nil => intro st h; exact h
  | cons i rest ih =>
    intro st h
    rw [seq_pages]
    cases scrape_page (pagesEnv i) now st.existing with
    | error e => rfl
    | ok payload =>
      cases payload with
      | none => exact ih st h
      | some page_data =>
        dsimp only
        split_ifs
        · exact ih st h
        · exact ih _ (process_records_events geoEnv page_data st h)

/-- A card without the heading element makes the whole per-card loop
raise, whatever comes after it, provided the cards before it are
well-formed (heading and footer present). -/
theorem extract_cards_malformed (existing : List String) (now : Nat)
    (bad : Card) (hbad : bad.heading = none) :
    ∀ pre : List Card,
      (∀ c ∈ pre, c.heading.isSome = true ∧ c.footer.isSome = true) →
      ∀ post : List Card,
        extract_cards existing now (pre ++ bad :: post)
          = .error .attributeError := by
  intro pre
  induction pre with
  | nil =>
    intro _ post
    rw [List.nil_append, extract_cards, hbad]
  | cons c pre ih =>
    intro hwf post
    obtain ⟨h1, h2⟩ := hwf c (List.mem_cons_self c pre)
    obtain ⟨h, hh⟩ := Option.isSome_iff_exists.mp h1
    obtain ⟨f, hf⟩ := Option.isSome_iff_exists.mp h2
    have hpre : ∀ d ∈ pre, d.heading.isSome = true ∧ d.footer.isSome = true :=
      fun d hd => hwf d (List.mem_cons_of_mem c hd)
    rw [List.cons_append, extract_cards, hh]
    dsimp only
    by_cases hmem : existing.contains (py_strip h) = true
    · rw [if_pos hmem]
      exact ih hpre post
    · rw [if_neg hmem, hf]
      dsimp only
      rw [ih hpre post]

/-- Page-level version: with a 200 status the uncaught `AttributeError`
escapes `scrape_page`. -/
theorem scrape_page_malformed (existing : List String) (now : Nat)
    (bad : Card) (hbad : bad.heading = none) (pre : List Card)
    (hwf : ∀ c ∈ pre, c.heading.isSome = true ∧ c.footer.isSome = true)
    (post : List Card) (hasNext : Bool) :
    scrape_page (.ok 200 (pre ++ bad :: post) hasNext) now existing
      = .error .attributeError := by
  rw [scrape_page]
  rw [if_neg (by simp)]
  have hne : (pre ++ bad :: post).isEmpty = false := by cases pre <;> rfl
  rw [hne]
  rw [if_neg (by simp)]
  rw [extract_cards_malformed existing now bad hbad pre hwf post]
  rfl

/-- The page on which `find_max_pages` stops is one whose markup has no
"next page" link. -/
theorem find_max_pages_last (env : Nat → FetchResult) :
    ∀ fuel start n : Nat,
      find_max_pages env fuel start = .ok (some n) →
      ∃ s c, env n = .ok s c false := by
  intro fuel
  induction fuel with
  | zero =>
    intro start n h
    exact absurd h (by rw [find_max_pages]; simp)
  | succ f ih =>
    intro start n h
    rw [find_max_pages] at h
    cases he : env start with
    | requestException => rw [he] at h; exact absurd h (by simp)
    | ok s c hn =>
      rw [he] at h
      dsimp only at h
      by_cases hb : hn = true
      · rw [if_pos hb] at h
        exact ih (start + 1) n h
      · rw [if_neg hb] at h
        have : start = n := by
          have := Except.ok.inj h
          exact Option.some.inj this
        subst this
        exact ⟨s, c, by rw [he, Bool.not_eq_true hn |>.mp hb]⟩

/-- `find_one` misses when no document carries the name. -/
theorem find_one_none (st : Store) (name : String)
    (h : ∀ d ∈ st.docs, d.fields.orgName ≠ name) :
    find_one st name = none := by
  unfold find_one
  refine List.find?_eq_none.mpr ?_
  intro d hd
  simpa using h d hd

/-- Patching the freshly appended document leaves earlier documents (all
with older ids) untouched and rewrites the new one. -/
theorem set_first_fresh (i : Nat) (q r : EnrichedRec) :
    ∀ docs : List Doc, (∀ d ∈ docs, d.id ≠ i) →
      set_first (docs ++ [{ id := i, fields := q }]) i r
        = docs ++ [{ id := i, fields := r }] := by
  intro docs
  induction docs with
  | nil =>
    intro _
    simp [set_first]
  | cons d rest ih =>
    intro h
    rw [List.cons_append, set_first]
    rw [if_neg (h d (List.mem_cons_self d rest))]
    rw [ih (fun e he => h e (List.mem_cons_of_mem d he))]
    rfl

/-! Claim theorems. -/

/-- Claim C5: `split_location` splits on the literal separator `", "`;
with at least two parts it returns (first part, last part), discarding
middle parts; with fewer than two parts it returns (the whole string,
None); and in particular it maps "Brussels, Wallonia, Belgium" to
("Brussels", "Belgium"). -/
theorem split_location_first_last :
    (∀ location : String,
      split_location location =
        if 2 ≤ ((split_cs location.data).map String.mk).length then
          (((split_cs location.data).map String.mk).head!,
            some (((split_cs location.data).map String.mk).getLast!))
        else (location, none))
    ∧ split_location "Brussels, Wallonia, Belgium"
        = ("Brussels", some "Belgium") := by
  exact ⟨fun location => rfl, by decide⟩

/-- Claim C9: every value `get_coordinates` returns is either a pair of
two coordinates or `(None, None)`, never one without the other; hence
every record the pipeline enriches, and in particular every record the
sequential driver writes, carries latitude and longitude together or not
at all. -/
theorem coordinates_all_or_nothing :
    (∀ (env : Nat → Option String → GeoResp) (city : String)
        (country : Option String),
      get_coordinates env city country = (none, none)
      ∨ ∃ a b, get_coordinates env city country = (some a, some b))
    ∧ (∀ (env : Nat → Option String → GeoResp) (r : RawRec),
      ((enrich_record env r).latitude.isSome
        == (enrich_record env r).longitude.isSome) = true)
    ∧ (∀ (pagesEnv : Nat → FetchResult)
        (geoEnv : Nat → Nat → Option String → GeoResp)
        (now fuel : Nat) (existing : List String) (store : Store),
      (writes_of (seq_main pagesEnv geoEnv now fuel existing store)).all
        (fun r => r.latitude.isSome == r.longitude.isSome) = true) := by
  refine ⟨get_coordinates_shape, enrich_record_latlon, ?_⟩
  intro pagesEnv geoEnv now fuel existing store
  unfold seq_main
  cases find_max_pages pagesEnv fuel 1 with
  | error e => rfl
  | ok m =>
    cases m with
    | none => rfl
    | some max_pages =>
      dsimp only
      have := seq_pages_latlon pagesEnv geoEnv now (List.range' 1 max_pages)
        (init_state existing store) rfl
      cases hs : seq_pages pagesEnv geoEnv now (init_state existing store)
          (List.range' 1 max_pages) with
      | error e => rfl
      | ok st =>
        rw [hs] at this
        exact this

/-- Claim C3: `get_coordinates` never propagates a geocoder failure: on a
timeout of the first call (or of the fallback call) it runs the retry
block — a single further `geocode` call — exactly once, and returns
`(None, None)` when that retry locates nothing; on an
insufficient-privileges, service-error, or unexpected failure it returns
`(None, None)` with no retry (no further oracle call is consulted). -/
theorem geocode_failure_policy :
    ∀ (env : Nat → Option String → GeoResp) (city : String)
      (country : Option String),
      (env 0 (firstQuery city country) = .timedOut →
        get_coordinates env city country = geo_retry env 1 city country
        ∧ ((∀ a b q, env 1 q ≠ .found a b) →
            get_coordinates env city country = (none, none)))
      ∧ (env 0 (firstQuery city country) = .notFound →
          truthy country = true → env 1 country = .timedOut →
          get_coordinates env city country = geo_retry env 2 city country
          ∧ ((∀ a b q, env 2 q ≠ .found a b) →
              get_coordinates env city country = (none, none)))
      ∧ (env 0 (firstQuery city country) = .insufficientPrivileges →
          get_coordinates env city country = (none, none))
      ∧ (env 0 (firstQuery city country) = .serviceError →
          get_coordinates env city country = (none, none))
      ∧ (env 0 (firstQuery city country) = .otherError →
          get_coordinates env city country = (none, none)) := by
  intro env city country
  refine ⟨?_, ?_, ?_, ?_, ?_⟩
  · intro h
    constructor
    · unfold get_coordinates; rw [h]
    · intro hnf
      unfold get_coordinates
      rw [h]
      exact geo_retry_no_found env 1 city country hnf
  · intro h ht hto
    constructor
    · unfold get_coordinates; rw [h]; dsimp only; rw [ht, if_pos rfl, hto]
    · intro hnf
      unfold get_coordinates
      rw [h]
      dsimp only
      rw [ht, if_pos rfl, hto]
      exact geo_retry_no_found env 2 city country hnf
  · intro h; unfold get_coordinates; rw [h]
  · intro h; unfold get_coordinates; rw [h]
  · intro h; unfold get_coordinates; rw [h]

/-- Witness for C3 at concrete inputs: a first-call timeout whose retry
raises a service error yields `(None, None)`, and an
insufficient-privileges failure yields `(None, None)` directly. -/
theorem geocode_failure_policy_witness :
    get_coordinates envTimedOutThenErr "Brussels" (some "Belgium")
      = (none, none)
    ∧ get_coordinates envPrivileges "Brussels" (some "Belgium")
      = (none, none) := by
  constructor
  · exact ((geocode_failure_policy envTimedOutThenErr "Brussels"
        (some "Belgium")).1 rfl).2
      (by intro a b q h; simp [envTimedOutThenErr] at h)
  · exact (geocode_failure_policy envPrivileges "Brussels"
      (some "Belgium")).2.2.1 rfl

/-- Claim C4 (counterexample): with `country` absent the adapter does not
return `(None, None)` immediately without issuing any query — line 73
still calls `geolocator.geocode(country)` with the absent value, and when
the service resolves that query (Nominatim resolves the literal query
"None": a comune in Piedmont, Italy) its coordinates are returned. -/
theorem geocode_absent_country_still_queries :
    truthy none = false
    ∧ get_coordinates envNoneFound "" none = (some 45, some 7)
    ∧ get_coordinates envNoneFound "" none ≠ ((none : Option Int), none) := by
  decide

/-- Claim C4 (amended): when both city and country are present the first
query is `"{city}, {country}"`; when city is absent (or country is not
truthy) the first query is the raw `country` value — in particular, when
country is absent the adapter still issues one `geocode(country)` call
and returns that call's coordinates if it locates anything, else
`(None, None)`; and when the combined query yields no result while
country is present, the returned coordinates are exactly those of the
country-only fallback query, or `(None, None)` if that yields nothing. -/
theorem geocode_query_selection :
    ∀ (env : Nat → Option String → GeoResp) (city : String)
      (country : Option String),
      (city.isEmpty = false → truthy country = true →
        firstQuery city country = some (city ++ ", " ++ country.getD ""))
      ∧ (city.isEmpty = true ∨ truthy country = false →
          firstQuery city country = country)
      ∧ (truthy country = false →
          get_coordinates env city country =
            match env 0 country with
            | .found a b => (some a, some b)
            | _ => (none, none))
      ∧ (truthy country = true →
          env 0 (firstQuery city country) = .notFound →
          (∀ a b, env 1 country = .found a b →
            get_coordinates env city country = (some a, some b))
          ∧ (env 1 country = .notFound →
              get_coordinates env city country = (none, none))) := by
  intro env city country
  refine ⟨?_, ?_, ?_, ?_⟩
  · intro hc hk
    unfold firstQuery
    rw [hc, hk]
    rfl
  · intro h
    unfold firstQuery
    rcases h with h | h
    · rw [h]; rfl
    · rw [h, Bool.and_false]; rfl
  · intro hk
    have hq : firstQuery city country = country := by
      unfold firstQuery
      rw [hk, Bool.and_false]
      rfl
    unfold get_coordinates
    rw [hq, hk]
    cases env 0 country with
    | found a b => rfl
    | notFound => rfl
    | timedOut =>
      dsimp only
      unfold geo_retry
      rw [hk, Bool.and_false]
      rfl
    | insufficientPrivileges => rfl
    | serviceError => rfl
    | otherError => rfl
  · intro hk h
    constructor
    · intro a b hf
      unfold get_coordinates
      rw [h]
      dsimp only
      rw [hk, if_pos rfl, hf]
    · intro hn
      unfold get_coordinates
      rw [h]
      dsimp only
      rw [hk, if_pos rfl, hn]

/-- Witness for the amended C4 at concrete inputs: the combined query,
the country-alone query, the no-country behaviour, and the
country-centroid fallback. -/
theorem geocode_query_selection_witness :
    firstQuery "Brussels" (some "Belgium") = some "Brussels, Belgium"
    ∧ firstQuery "Brussels" none = none
    ∧ get_coordinates envPrivileges "Brussels" none = (none, none)
    ∧ get_coordinates envFallback "Brussels" (some "Belgium")
        = (some 50, some 4) := by
  refine ⟨?_, ?_, ?_, ?_⟩
  · simpa using
      (geocode_query_selection envPrivileges "Brussels" (some "Belgium")).1
        (by decide) (by decide)
  · exact (geocode_query_selection envPrivileges "Brussels" none).2.1
      (Or.inr (by decide))
  · exact ((geocode_query_selection envPrivileges "Brussels" none).2.2.1
      (by decide)).trans (by decide)
  · exact ((geocode_query_selection envFallback "Brussels"
      (some "Belgium")).2.2.2 (by decide) (by decide)).1 50 4 (by decide)

/-- Claim C1 (code bug, evaluated at the failing input): on a single
page whose cards are named A, A, B (empty initial known-set), the second
A hits the "Record already exists. Stopping process." branch — yet the
run does not stop: the `continue` on line 180 moves to the next record,
and B is still enriched and written after the hit. -/
theorem seq_known_hit_does_not_stop :
    stops_of (seq_main pagesKnownMidRun geoNone 0 1 [] emptyStore) = ["A"]
    ∧ (writes_of (seq_main pagesKnownMidRun geoNone 0 1 [] emptyStore)).map
        (fun r => r.orgName) = ["A", "B"] := by
  decide

/-- Claim C2 (counterexample): a page whose second card lacks the
organization-name heading does not lose just that card — the whole
page's extraction raises, and the `AttributeError` is fatal to the run
in both modes (sequential: it propagates out of `scrape_page` into
`main`; bulk: `future.result()` re-raises it in the collection loop). -/
theorem malformed_card_fatal_example :
    scrape_page (.ok 200 [cardA, badCard] false) 0 []
      = .error .attributeError
    ∧ seq_main pagesMalformed geoNone 0 1 [] emptyStore
      = .error .attributeError
    ∧ bulk_main pagesMalformed geoNone 0 [] emptyStore
      = .error .attributeError := by
  refine ⟨rfl, rfl, rfl⟩

/-- Claim C2 (amended): a card lacking the required organization-name
heading makes `.text` raise an uncaught `AttributeError`: the page's
extraction aborts wholesale (no record of that page survives, including
the well-formed cards before the malformed one), and the error is fatal
to the run in both modes. -/
theorem malformed_card_aborts :
    ∀ (existing : List String) (now : Nat) (pre post : List Card)
      (bad : Card) (geoEnv : Nat → Nat → Option String → GeoResp)
      (store : Store) (fuel : Nat),
      (∀ c ∈ pre, c.heading.isSome = true ∧ c.footer.isSome = true) →
      bad.heading = none → 1 ≤ fuel →
      extract_cards existing now (pre ++ bad :: post)
        = .error .attributeError
      ∧ scrape_page (.ok 200 (pre ++ bad :: post) false) now existing
          = .error .attributeError
      ∧ seq_main (fun _ => .ok 200 (pre ++ bad :: post) false) geoEnv now
          fuel existing store = .error .attributeError
      ∧ bulk_main (fun _ => .ok 200 (pre ++ bad :: post) false) geoEnv now
          existing store = .error .attributeError := by
  intro existing now pre post bad geoEnv store fuel hwf hbad hfuel
  have hext := extract_cards_malformed existing now bad hbad pre hwf post
  have hpage := scrape_page_malformed existing now bad hbad pre hwf post false
  refine ⟨hext, hpage, ?_, ?_⟩
  · obtain ⟨f, rfl⟩ : ∃ f, fuel = f + 1 := by
      cases fuel with
      | zero => omega
      | succ f => exact ⟨f, rfl⟩
    unfold seq_main
    rw [find_max_pages]
    dsimp only
    rw [if_neg (by simp)]
    dsimp only
    have : List.range' 1 1 = [1] := rfl
    rw [this, seq_pages]
    dsimp only [init_state]
    rw [hpage]
    rfl
  · unfold bulk_main
    have : List.range' 1 100 = 1 :: List.range' 2 99 := rfl
    rw [this, bulk_collect, hpage]

/-- Witness for the amended C2 at a concrete input: one good card before
one heading-less card. -/
theorem malformed_card_aborts_witness :
    extract_cards [] 0 ([cardA] ++ badCard :: [])
      = .error .attributeError
    ∧ scrape_page (.ok 200 ([cardA] ++ badCard :: []) false) 0 []
        = .error .attributeError
    ∧ seq_main (fun _ => .ok 200 ([cardA] ++ badCard :: []) false) geoNone
        0 1 [] emptyStore = .error .attributeError
    ∧ bulk_main (fun _ => .ok 200 ([cardA] ++ badCard :: []) false) geoNone
        0 [] emptyStore = .error .attributeError :=
  malformed_card_aborts [] 0 [cardA] [] badCard geoNone emptyStore 1
    (by decide) rfl (by decide)

/-- Claim C6 (counterexample): a zero-card page is not the sequential
run's termination condition. Page 1 has zero cards but a "next page"
link; the extractor returns `None` for it, yet the run continues and
still writes page 2's record B. -/
theorem zero_card_not_termination :
    scrape_page (pagesZeroCardMidRun 1) 0 [] = .ok none
    ∧ (writes_of (seq_main pagesZeroCardMidRun geoNone 0 10 [] emptyStore)).map
        (fun r => r.orgName) = ["B"] := by
  exact ⟨rfl, by decide⟩

/-- Claim C6 (amended): a page with zero card elements yields `None` from
the extractor (not an error); in bulk mode such a page contributes zero
records to the aggregate without otherwise altering it; in sequential
mode such a page is merely skipped — the page loop continues unchanged —
and the run's termination is instead governed by `find_max_pages`, which
stops exactly on a page with no "next page" link. -/
theorem zero_card_page_skipped :
    ∀ (pagesEnv : Nat → FetchResult)
      (geoEnv : Nat → Nat → Option String → GeoResp) (now : Nat)
      (existing : List String) (st : SeqState) (status : Nat) (hn : Bool)
      (i : Nat) (rest : List Nat) (fuel n : Nat),
      scrape_page (.ok status [] hn) now existing = .ok none
      ∧ (scrape_page (pagesEnv i) now existing = .ok none →
          bulk_collect pagesEnv now existing (i :: rest)
            = bulk_collect pagesEnv now existing rest)
      ∧ (scrape_page (pagesEnv i) now st.existing = .ok none →
          seq_pages pagesEnv geoEnv now st (i :: rest)
            = seq_pages pagesEnv geoEnv now st rest)
      ∧ (find_max_pages pagesEnv fuel 1 = .ok (some n) →
          ∃ s c, pagesEnv n = .ok s c false) := by
  intro pagesEnv geoEnv now existing st status hn i rest fuel n
  refine ⟨?_, ?_, ?_, find_max_pages_last pagesEnv fuel 1 n⟩
  · rw [scrape_page]
    by_cases hs : status ≠ 200
    · rw [if_pos hs]
    · rw [if_neg hs]; rfl
  · intro h
    rw [bulk_collect, h]
  · intro h
    rw [seq_pages, h]

/-- Witness for the amended C6 at concrete inputs: the zero-card page 1
of `pagesZeroCardMidRun` is skipped by both collection loops, and
`find_max_pages` stops on page 2, which has no next link. -/
theorem zero_card_page_skipped_witness :
    bulk_collect pagesZeroCardMidRun 0 [] [1, 2]
      = bulk_collect pagesZeroCardMidRun 0 [] [2]
    ∧ seq_pages pagesZeroCardMidRun geoNone 0 (init_state [] emptyStore) [1, 2]
        = seq_pages pagesZeroCardMidRun geoNone 0 (init_state [] emptyStore) [2]
    ∧ ∃ s c, pagesZeroCardMidRun 2 = .ok s c false := by
  have h := zero_card_page_skipped pagesZeroCardMidRun geoNone 0 []
    (init_state [] emptyStore) 200 true 1 [2] 10 2
  exact ⟨h.2.1 rfl, h.2.2.1 rfl, h.2.2.2 rfl⟩

/-- Claim C7: a record whose organization name is in the known-set at
the time it is encountered is never passed to the enrichment or write
stages — in bulk mode every extracted record, and hence the whole
collected batch, carries a name outside the fixed known-set loaded at
start; in sequential mode every record that reaches enrichment (each
entry of the ghost event trace) had a name outside the in-memory
known-set snapshot taken when it was encountered. -/
theorem dedup_filters_known :
    (∀ (existing : List String) (now : Nat) (cards : List Card),
      ((extract_cards existing now cards).toOption.getD []).all
        (fun r => !existing.contains r.orgName) = true)
    ∧ (∀ (pagesEnv : Nat → FetchResult) (now : Nat)
        (existing : List String) (pages : List Nat),
      ((bulk_collect pagesEnv now existing pages).toOption.getD []).all
        (fun r => !existing.contains r.orgName) = true)
    ∧ (∀ (pagesEnv : Nat → FetchResult)
        (geoEnv : Nat → Nat → Option String → GeoResp)
        (now fuel : Nat) (existing : List String) (store : Store),
      (events_of (seq_main pagesEnv geoEnv now fuel existing store)).all
        (fun e => !e.1.contains e.2) = true) := by
  refine ⟨extract_cards_all_new, bulk_collect_all_new, ?_⟩
  intro pagesEnv geoEnv now fuel existing store
  unfold seq_main
  cases find_max_pages pagesEnv fuel 1 with
  | error e => rfl
  | ok m =>
    cases m with
    | none => rfl
    | some max_pages =>
      dsimp only
      have := seq_pages_events pagesEnv geoEnv now (List.range' 1 max_pages)
        (init_state existing store) rfl
      cases hs : seq_pages pagesEnv geoEnv now (init_state existing store)
          (List.range' 1 max_pages) with
      | error e => rfl
      | ok st =>
        rw [hs] at this
        exact this

/-- Claim C8: the Store Writer's upsert is idempotent. Starting from a
store holding no document with the record's name (and whose live ids are
all older than `nextId`), the first `save_to_mongo([record])` call
inserts, the second call updates (reporting `updated`, not `inserted`),
the stored state is unchanged by the second call, and exactly one stored
document carries the record's name, with fields equal to the record's. -/
theorem upsert_idempotent :
    ∀ (r : EnrichedRec) (st : Store),
      (∀ d ∈ st.docs, d.fields.orgName ≠ r.orgName) →
      (∀ d ∈ st.docs, d.id ≠ st.nextId) →
      (save_to_mongo [r] st).2 = [.inserted]
      ∧ (save_to_mongo [r] (save_to_mongo [r] st).1).2 = [.updated]
      ∧ (save_to_mongo [r] (save_to_mongo [r] st).1).1
          = (save_to_mongo [r] st).1
      ∧ ((save_to_mongo [r] (save_to_mongo [r] st).1).1.docs.filter
          (fun d => d.fields.orgName == r.orgName))
          = [{ id := st.nextId, fields := r }] := by
  intro r st hname hid
  have hfind : find_one st r.orgName = none := find_one_none st r.orgName hname
  have hsave1 : save_to_mongo [r] st =
      ({ docs := st.docs ++ [{ id := st.nextId, fields := r }],
         nextId := st.nextId + 1 }, [.inserted]) := by
    unfold save_to_mongo save_to_mongo save_one
    rw [hfind]
  have hfind2 : find_one
      ({ docs := st.docs ++ [{ id := st.nextId, fields := r }],
         nextId := st.nextId + 1 } : Store) r.orgName
      = some { id := st.nextId, fields := r } := by
    unfold find_one
    dsimp only
    rw [List.find?_append]
    rw [show st.docs.find? (fun d => d.fields.orgName == r.orgName) = none from
      find_one_none st r.orgName hname]
    simp [List.find?]
  have hset : set_first (st.docs ++ [{ id := st.nextId, fields := r }])
      st.nextId r = st.docs ++ [{ id := st.nextId, fields := r }] :=
    set_first_fresh st.nextId r r st.docs hid
  have hsave2 : save_to_mongo [r]
      ({ docs := st.docs ++ [{ id := st.nextId, fields := r }],
         nextId := st.nextId + 1 } : Store)
      = ({ docs := st.docs ++ [{ id := st.nextId, fields := r }],
           nextId := st.nextId + 1 }, [.updated]) := by
    unfold save_to_mongo save_to_mongo save_one
    rw [hfind2]
    dsimp only
    rw [hset]
  refine ⟨by rw [hsave1], ?_, ?_, ?_⟩
  · rw [hsave1]
    dsimp only
    rw [hsave2]
  · rw [hsave1]
    dsimp only
    rw [hsave2]
  · rw [hsave1]
    dsimp only
    rw [hsave2]
    dsimp only
    rw [List.filter_append]
    rw [List.filter_eq_nil_iff.mpr
      (fun d hd => by simpa using hname d hd)]
    simp

/-- Witness for C8 at a concrete input: upserting `rec0` twice into the
empty store. -/
theorem upsert_idempotent_witness :
    (save_to_mongo [rec0] emptyStore).2 = [.inserted]
    ∧ (save_to_mongo [rec0] (save_to_mongo [rec0] emptyStore).1).2
        = [.updated]
    ∧ (save_to_mongo [rec0] (save_to_mongo [rec0] emptyStore).1).1
        = (save_to_mongo [rec0] emptyStore).1
    ∧ ((save_to_mongo [rec0] (save_to_mongo [rec0] emptyStore).1).1.docs.filter
        (fun d => d.fields.orgName == rec0.orgName))
        = [{ id := emptyStore.nextId, fields := rec0 }] :=
  upsert_idempotent rec0 emptyStore (by simp [emptyStore])
    (by simp [emptyStore])

/-- Claim C10: in bulk mode an empty collected batch (every page
unavailable, card-less, or already fully known) makes the enrichment
step access the "Location" column of an empty, column-less DataFrame:
the run aborts with a `KeyError` instead of completing with zero
writes. -/
theorem empty_batch_key_error :
    ∀ (pagesEnv : Nat → FetchResult)
      (geoEnv : Nat → Nat → Option String → GeoResp) (now : Nat)
      (existing : List String) (store : Store),
      bulk_collect pagesEnv now existing (List.range' 1 100) = .ok [] →
      bulk_main pagesEnv geoEnv now existing store
        = .error .keyErrorLocation := by
  intro pagesEnv geoEnv now existing store h
  unfold bulk_main
  rw [h]
  rfl

/-- Witness for C10 at a concrete input: a site where every fetch raises
`RequestException` collects an empty batch, and the bulk run aborts with
the `KeyError`. -/
theorem empty_batch_key_error_witness :
    bulk_main (fun _ => .requestException) geoNone 0 [] emptyStore
      = .error .keyErrorLocation :=
  empty_batch_key_error (fun _ => .requestException) geoNone 0 [] emptyStore
    rfl

end Scraping
